import Mathlib

/-!
# Verification of the topngx field-extraction and query pipeline

A shallow embedding of `src/main.rs` of the topngx repository: the
per-line record extraction (`parse_input`), input-source selection
(`input_source`), the startup sequencing of `run`, and the query
synthesis of the `top` subcommand.  The regex engine, the `nginx`
format-compiler module and the `processor` SQL module are external to
`src/main.rs`; they appear here as abstract parameters (a match
function `String → Option Captures`, `Except`-valued results), and the
SQL semantics of the synthesized `top` query is modelled from the spec.
-/

namespace Topngx

/-- The reserved input-source name for standard input (`const STDIN` in the source). -/
def STDIN : String := "STDIN"

/-- Reserved derived field name (`const STATUS_TYPE` in the source). -/
def STATUS_TYPE : String := "status_type"

/-- Reserved derived field name (`const BYTES_SENT` in the source). -/
def BYTES_SENT : String := "bytes_sent"

/-- Reserved derived field name (`const REQUEST_PATH` in the source). -/
def REQUEST_PATH : String := "request_path"

/-! ## Rust unsigned-integer parsing

`str::parse::<u16>` / `str::parse::<u32>`: an optional leading `+`,
then one or more ASCII decimal digits, and the value must fit in the
type; anything else (empty string, `-` sign, non-digit characters,
overflow) is a parse error. -/

/-- Accumulate ASCII decimal digits; any non-digit character is a parse error. -/
def parseDigits : List Char → Nat → Option Nat
  | [], acc => some acc
  | ch :: rest, acc =>
      if ch.isDigit then parseDigits rest (acc * 10 + (ch.toNat - 48)) else none

/-- Drop an optional leading plus sign. -/
def dropSign (cs : List Char) : List Char :=
  match cs with
  | '+' :: rest => rest
  | cs => cs

/-- Digit-sequence parsing bounded by the type maximum: at least one
digit, all characters digits, value at most `maxVal`. -/
def parseUnsignedCore (maxVal : Nat) (cs : List Char) : Option Nat :=
  if cs.isEmpty then none
  else
    match parseDigits cs 0 with
    | none => none
    | some n => if n ≤ maxVal then some n else none

/-- Model of the unsigned `str::parse` of Rust with maximum value `maxVal`:
optional leading `+`, at least one digit, value at most `maxVal`. -/
def parseUnsigned (maxVal : Nat) (s : String) : Option Nat :=
  parseUnsignedCore maxVal (dropSign s.data)

/-- Maximum value of Rust's `u16`. -/
def U16_MAX : Nat := 65535

/-- Maximum value of Rust's `u32`. -/
def U32_MAX : Nat := 4294967295

/-! ## Captures -/

/-- The named captures of one successful regex match: an association
list from group name to matched text.  A group that is not defined by
the pattern, or did not participate in the match, is absent. -/
abbrev Captures := List (String × String)

/-- Model of the regex crate's `Captures::name`: the text matched by
the named group, if the group matched. -/
def Captures.name (c : Captures) (n : String) : Option String :=
  (List.find? (fun p => p.1 == n) c).map (fun p => p.2)

/-- A value bound into a SQL insertion (the `Box<dyn ToSql>` payloads
in the source: `u16`/`u32` for the derived numeric fields, `String`
otherwise). -/
inductive SqlValue where
  | int : Nat → SqlValue
  | str : String → SqlValue
deriving DecidableEq

/-! ## Record extraction (`parse_input`, lines 138–178 of `main.rs`) -/

/-- The body of the per-field loop of `parse_input`: from the captures
`c` of one matched line, build the record entry for one requested
field. -/
def extractField (c : Captures) (field : String) : String × SqlValue :=
  if field = STATUS_TYPE then
    let status := (c.name "status").getD ""
    (":" ++ field, SqlValue.int ((parseUnsigned U16_MAX status).getD 0 / 100))
  else if field = BYTES_SENT then
    let bytesSent := (c.name "body_bytes_sent").getD ""
    (":" ++ field, SqlValue.int ((parseUnsigned U32_MAX bytesSent).getD 0))
  else if field = REQUEST_PATH then
    match c.name "request_uri" with
    | some uri => (":" ++ field, SqlValue.str uri)
    | none => (":" ++ field, SqlValue.str ((c.name "request").getD ""))
  else
    (":" ++ field, SqlValue.str ((c.name field).getD ""))

/-- The record built for one matched line: one entry per requested
field, in the order of the processor's field list. -/
def extractRecord (c : Captures) (fields : List String) : List (String × SqlValue) :=
  fields.map (extractField c)

/-- Model of `parse_input`: run the compiled pattern over every input line; a
matching line contributes one record, a non-matching line contributes
nothing.  The pattern is the abstract match function of the compiled
regex. -/
def parse_input (pattern : String → Option Captures) (fields : List String)
    (lines : List String) : List (List (String × SqlValue)) :=
  lines.filterMap (fun line => (pattern line).map (fun c => extractRecord c fields))

/-! ## Spec-side descriptions of the derived fields -/

/-- The spec's `status_type` transformation: parse the `status`
capture text as an unsigned (16-bit) integer, 0 on parse failure, then
integer-divide by 100. -/
def statusTypeSpec (s : String) : Nat :=
  (parseUnsigned U16_MAX s).getD 0 / 100

/-- The spec's `bytes_sent` transformation: parse the
`body_bytes_sent` capture text as an unsigned 32-bit integer, 0 on
parse failure. -/
def bytesSentSpec (s : String) : Nat :=
  (parseUnsigned U32_MAX s).getD 0

/-! ## Input-source selection (`input_source`, lines 107–115) -/

/-- The selected input source. -/
inductive InputSource where
  | stdin : InputSource
  | file : String → InputSource
deriving DecidableEq

/-- Model of `input_source`: standard input when the access log is the reserved
name `STDIN`; otherwise open the file when `no_follow` is set; otherwise
reject follow mode.  `openFile` abstracts `File::open`'s fallibility. -/
def input_source (openFile : String → Except String InputSource)
    (no_follow : Bool) (access_log : String) : Except String InputSource :=
  if access_log = STDIN then Except.ok InputSource.stdin
  else if no_follow then openFile access_log
  else Except.error "following log files is not currently implemented"

/-! ## The `run` pipeline (lines 117–136) -/

/-- The processor as visible from `main.rs`: the requested field list
(`processor.fields`). -/
structure Processor where
  fields : List String

/-- The `run` pipeline of `main.rs`: select the input source, compile
the format to a pattern, construct the processor — each with `?`
propagation — and only then parse the input lines.  `format_to_pattern`
and `generate_processor` live in modules outside `src/`, so their
outcomes are passed in as `Except` results. -/
def run (inputRes : Except String (List String))
    (patternRes : Except String (String → Option Captures))
    (processorRes : Except String Processor) :
    Except String (List (List (String × SqlValue))) := do
  let lines ← inputRes
  let pattern ← patternRes
  let proc ← processorRes
  pure (parse_input pattern proc.fields lines)

/-! ## The `top` subcommand (lines 227–242) -/

/-- The query text synthesized by `top_subcommand` for one field. -/
def topQueryText (limit : Nat) (f : String) : String :=
  "SELECT " ++ f ++ ", COUNT(1) AS count FROM log GROUP BY " ++ f ++
    " ORDER BY COUNT DESC LIMIT " ++ toString limit

/-- Query synthesis of `top_subcommand`: one aggregation query per
requested field. -/
def top_subcommand (limit : Nat) (fields : List String) : List String :=
  fields.map (topQueryText limit)

/-- Descending order on occurrence count, used to model
`ORDER BY COUNT DESC`. -/
def countGE (a b : String × Nat) : Prop := b.2 ≤ a.2

instance : DecidableRel countGE := fun a b => inferInstanceAs (Decidable (b.2 ≤ a.2))

instance : IsTotal (String × Nat) countGE :=
  ⟨fun a b => (Nat.le_total b.2 a.2).elim Or.inl Or.inr⟩

instance : IsTrans (String × Nat) countGE :=
  ⟨fun _ _ _ h1 h2 => Nat.le_trans h2 h1⟩

/-- Modelled from the spec: the SQL engine (rusqlite and the
`processor` module, not under `src/`) executing the synthesized `top`
query `SELECT f, COUNT(1) AS count FROM log GROUP BY f ORDER BY COUNT
DESC LIMIT n` on the column of values for `f`: the distinct values
with their occurrence counts, ordered by descending count, truncated
to the limit. -/
def runTopQuery (col : List String) (limit : Nat) : List (String × Nat) :=
  (List.insertionSort countGE
    ((col.dedup).map (fun v => (v, col.count v)))).take limit

/-! ## Helper lemmas -/

/-- A successful unsigned parse never exceeds the type maximum. -/
theorem parseUnsigned_le {maxVal : Nat} {s : String} {n : Nat}
    (h : parseUnsigned maxVal s = some n) : n ≤ maxVal := by
  unfold parseUnsigned parseUnsignedCore at h
  split at h
  · exact absurd h (by simp)
  · split at h
    · exact absurd h (by simp)
    · split at h
      · simp_all
      · exact absurd h (by simp)

/-- Every record entry built by the per-field loop is keyed by the
field name with a leading colon. -/
theorem extractField_fst (c : Captures) (f : String) :
    (extractField c f).1 = ":" ++ f := by
  unfold extractField
  split_ifs with h1 h2 h3
  · rfl
  · rfl
  · cases hname : c.name "request_uri" <;> simp
  · rfl

/-- A matching line contributes exactly its extracted record. -/
theorem parse_input_matched (pattern : String → Option Captures)
    (fields : List String) (line : String) (c : Captures)
    (hmatch : pattern line = some c) :
    parse_input pattern fields [line] = [extractRecord c fields] := by
  simp [parse_input, hmatch]

/-! ## The claims -/

/-- C1: for every input line that matches the compiled pattern, the
extracted `status_type` field equals the `status` capture (empty
string if absent) parsed as an unsigned integer with 0 on parse
failure, integer-divided by 100; in particular status "404" yields 4,
and "" or "abc" yields 0. -/
theorem status_type_of_matched_line (pattern : String → Option Captures)
    (fields : List String) (line : String) (c : Captures)
    (hmatch : pattern line = some c) :
    parse_input pattern fields [line] = [extractRecord c fields] ∧
    extractField c STATUS_TYPE =
      (":" ++ STATUS_TYPE, SqlValue.int (statusTypeSpec ((c.name "status").getD ""))) ∧
    statusTypeSpec "404" = 4 ∧ statusTypeSpec "" = 0 ∧ statusTypeSpec "abc" = 0 :=
  ⟨parse_input_matched pattern fields line c hmatch, rfl, by decide, by decide, by decide⟩

/-- Witness for C1 at a concrete line with status capture "404". -/
theorem status_type_of_matched_line_witness :
    parse_input (fun _ => some [("status", "404")]) [STATUS_TYPE] ["line"] =
        [[(":status_type", SqlValue.int 4)]] ∧
    extractField [("status", "404")] STATUS_TYPE = (":status_type", SqlValue.int 4) ∧
    statusTypeSpec "404" = 4 ∧ statusTypeSpec "" = 0 ∧ statusTypeSpec "abc" = 0 :=
  status_type_of_matched_line (fun _ => some [("status", "404")]) [STATUS_TYPE]
    "line" [("status", "404")] rfl

/-- C2, as stated, is false: the status capture "600" parses as a
`u16` and yields status class 600 / 100 = 6, outside {0, 1, 2, 3, 4, 5}. -/
theorem status_type_class_counterexample :
    extractField [("status", "600")] STATUS_TYPE = (":status_type", SqlValue.int 6) ∧
    ¬ (6 : Nat) ≤ 5 := by
  exact ⟨by decide, by decide⟩

/-- C2 (amended): the extracted `status_type` value always lies in
{0, ..., 655}: the `u16` parse is bounded by 65535, so the class is at
most 65535 / 100 = 655 (0 for an unparseable or missing status). -/
theorem status_type_class_bounded (c : Captures) :
    ∃ n, extractField c STATUS_TYPE = (":" ++ STATUS_TYPE, SqlValue.int n) ∧ n ≤ 655 := by
  refine ⟨statusTypeSpec ((c.name "status").getD ""), rfl, ?_⟩
  unfold statusTypeSpec
  cases h : parseUnsigned U16_MAX ((c.name "status").getD "") with
  | none => simp
  | some m =>
    have hle : m ≤ U16_MAX := parseUnsigned_le h
    have : m / 100 ≤ U16_MAX / 100 := Nat.div_le_div_right hle
    simpa [U16_MAX] using this

/-- C3: for every input line that matches the compiled pattern, the
extracted `bytes_sent` field equals the `body_bytes_sent` capture
parsed as an unsigned 32-bit integer with 0 on absence or parse
failure; in particular "1234" yields 1234, and "" or "-1" yields 0. -/
theorem bytes_sent_of_matched_line (pattern : String → Option Captures)
    (fields : List String) (line : String) (c : Captures)
    (hmatch : pattern line = some c) :
    parse_input pattern fields [line] = [extractRecord c fields] ∧
    extractField c BYTES_SENT =
      (":" ++ BYTES_SENT, SqlValue.int (bytesSentSpec ((c.name "body_bytes_sent").getD ""))) ∧
    bytesSentSpec "1234" = 1234 ∧ bytesSentSpec "" = 0 ∧ bytesSentSpec "-1" = 0 :=
  ⟨parse_input_matched pattern fields line c hmatch, rfl, by decide, by decide, by decide⟩

/-- Witness for C3 at a concrete line with body_bytes_sent capture "1234". -/
theorem bytes_sent_of_matched_line_witness :
    parse_input (fun _ => some [("body_bytes_sent", "1234")]) [BYTES_SENT] ["line"] =
        [[(":bytes_sent", SqlValue.int 1234)]] ∧
    extractField [("body_bytes_sent", "1234")] BYTES_SENT =
        (":bytes_sent", SqlValue.int 1234) ∧
    bytesSentSpec "1234" = 1234 ∧ bytesSentSpec "" = 0 ∧ bytesSentSpec "-1" = 0 :=
  bytes_sent_of_matched_line (fun _ => some [("body_bytes_sent", "1234")]) [BYTES_SENT]
    "line" [("body_bytes_sent", "1234")] rfl

/-- C4: the extracted `request_path` field equals the `request_uri`
capture whenever it matched, otherwise the `request` capture verbatim,
and the empty string when neither capture exists; the fallback to
`request` occurs only when `request_uri` is absent. -/
theorem request_path_preference (c : Captures) :
    (∀ uri, c.name "request_uri" = some uri →
      extractField c REQUEST_PATH = (":" ++ REQUEST_PATH, SqlValue.str uri)) ∧
    (c.name "request_uri" = none →
      extractField c REQUEST_PATH =
        (":" ++ REQUEST_PATH, SqlValue.str ((c.name "request").getD ""))) ∧
    (c.name "request_uri" = none → c.name "request" = none →
      extractField c REQUEST_PATH = (":" ++ REQUEST_PATH, SqlValue.str "")) := by
  refine ⟨fun uri h => ?_, fun h => ?_, fun h h2 => ?_⟩
  · simp [extractField, REQUEST_PATH, STATUS_TYPE, BYTES_SENT, h]
  · simp [extractField, REQUEST_PATH, STATUS_TYPE, BYTES_SENT, h]
  · simp [extractField, REQUEST_PATH, STATUS_TYPE, BYTES_SENT, h, h2]

/-- Witness for C4 at concrete captures covering all three cases. -/
theorem request_path_preference_witness :
    extractField [("request_uri", "/x"), ("request", "GET /y HTTP/1.1")] REQUEST_PATH
        = (":request_path", SqlValue.str "/x") ∧
    extractField [("request", "GET /y HTTP/1.1")] REQUEST_PATH
        = (":request_path", SqlValue.str "GET /y HTTP/1.1") ∧
    extractField [] REQUEST_PATH = (":request_path", SqlValue.str "") :=
  ⟨(request_path_preference _).1 "/x" (by decide),
   (request_path_preference _).2.1 (by decide),
   (request_path_preference _).2.2 (by decide) (by decide)⟩

/-- C5: for every field name other than the reserved derived names,
the extracted value is the text of the identically-named capture, or
the empty string when that capture is undefined or unmatched;
extraction is total, so it never fails on a missing optional field. -/
theorem generic_field_extraction (c : Captures) (field : String)
    (h1 : field ≠ STATUS_TYPE) (h2 : field ≠ BYTES_SENT) (h3 : field ≠ REQUEST_PATH) :
    extractField c field = (":" ++ field, SqlValue.str ((c.name field).getD "")) := by
  simp [extractField, h1, h2, h3]

/-- Witness for C5 at the field "remote_addr", both captured and missing. -/
theorem generic_field_extraction_witness :
    extractField [("remote_addr", "1.2.3.4")] "remote_addr"
        = (":remote_addr", SqlValue.str "1.2.3.4") ∧
    extractField [] "remote_addr" = (":remote_addr", SqlValue.str "") :=
  ⟨generic_field_extraction _ _ (by decide) (by decide) (by decide),
   generic_field_extraction _ _ (by decide) (by decide) (by decide)⟩

/-- C6: a line that does not match the compiled pattern produces no
record and raises no error (extraction is total): it contributes no
row, and the record list fed to every subsequent aggregation is exactly
the one obtained with the line removed from the input. -/
theorem non_matching_line_skipped (pattern : String → Option Captures)
    (fields : List String) (pre post : List String) (line : String)
    (h : pattern line = none) :
    parse_input pattern fields [line] = [] ∧
    parse_input pattern fields (pre ++ line :: post) =
      parse_input pattern fields (pre ++ post) := by
  constructor
  · simp [parse_input, h]
  · simp [parse_input, h]

/-- Witness for C6: a non-matching line among matching ones changes nothing. -/
theorem non_matching_line_skipped_witness :
    parse_input (fun s => if s = "ok" then some [] else none) [REQUEST_PATH]
        ["bad"] = [] ∧
    parse_input (fun s => if s = "ok" then some [] else none) [REQUEST_PATH]
        (["ok"] ++ "bad" :: ["ok"]) =
      parse_input (fun s => if s = "ok" then some [] else none) [REQUEST_PATH]
        (["ok"] ++ ["ok"]) :=
  non_matching_line_skipped (fun s => if s = "ok" then some [] else none)
    [REQUEST_PATH] ["ok"] ["ok"] "bad" (by decide)

/-- C7: with a file input source (not the reserved STDIN name) and
follow mode requested (`no_follow` false), `input_source` fails with
the explicit not-supported error; the file is never opened, so follow
mode is never performed silently. -/
theorem follow_mode_rejected (openFile : String → Except String InputSource)
    (access_log : String) (h : access_log ≠ STDIN) :
    input_source openFile false access_log =
      Except.error "following log files is not currently implemented" := by
  simp [input_source, h]

/-- Witness for C7 at the concrete path "access.log". -/
theorem follow_mode_rejected_witness :
    input_source (fun p => Except.ok (InputSource.file p)) false "access.log" =
      Except.error "following log files is not currently implemented" :=
  follow_mode_rejected (fun p => Except.ok (InputSource.file p)) "access.log" (by decide)

/-- C8: in the `run` pipeline, a pattern-compilation failure or a
processor-construction failure propagates as the run result — for
every input whatsoever, so no line is ever parsed — and a successful
run's records are exactly those of `parse_input`, which therefore
begins only after both steps succeeded. -/
theorem fatal_errors_stop_run (lines : List String)
    (processorRes : Except String Processor) (e : String) :
    run (Except.ok lines) (Except.error e) processorRes = Except.error e ∧
    (∀ p, run (Except.ok lines) (Except.ok p) (Except.error e) = Except.error e) ∧
    (∀ p proc result,
      run (Except.ok lines) (Except.ok p) (Except.ok proc) = Except.ok result →
      result = parse_input p proc.fields lines) := by
  refine ⟨rfl, fun p => rfl, fun p proc result h => ?_⟩
  have h2 : Except.ok (parse_input p proc.fields lines) = Except.ok result := h
  exact (Except.ok.inj h2).symm

/-- Witness for C8: a concrete successful run yields the `parse_input`
records, and concrete failing runs yield the errors. -/
theorem fatal_errors_stop_run_witness :
    run (Except.ok ["l"]) (Except.error "boom") (Except.ok (Processor.mk [])) =
        Except.error "boom" ∧
    ([] : List (List (String × SqlValue))) =
      parse_input (fun _ => none) (Processor.mk [REQUEST_PATH]).fields ["l"] :=
  ⟨(fatal_errors_stop_run ["l"] (Except.ok (Processor.mk [])) "boom").1,
   (fatal_errors_stop_run ["l"] (Except.ok (Processor.mk [])) "boom").2.2
     (fun _ => none) (Processor.mk [REQUEST_PATH]) [] rfl⟩

/-- C9: the top subcommand synthesizes exactly one aggregation query
per requested field, embedding that field and the configured limit;
each such query (SQL semantics modelled from the spec by
`runTopQuery`) computes the distinct values of the field's column with
their occurrence counts, in descending count order, truncated to the
limit. -/
theorem top_subcommand_queries (limit : Nat) (fields : List String) :
    top_subcommand limit fields = fields.map (topQueryText limit) ∧
    (top_subcommand limit fields).length = fields.length ∧
    (∀ f, f ∈ fields →
      ("SELECT " ++ f ++ ", COUNT(1) AS count FROM log GROUP BY " ++ f ++
        " ORDER BY COUNT DESC LIMIT " ++ toString limit) ∈ top_subcommand limit fields) ∧
    (∀ col : List String,
      (runTopQuery col limit).length ≤ limit ∧
      (runTopQuery col limit).Pairwise countGE ∧
      (∀ v n, (v, n) ∈ runTopQuery col limit → v ∈ col ∧ n = col.count v)) := by
  refine ⟨rfl, by simp [top_subcommand], fun f hf => ?_, fun col => ⟨?_, ?_, ?_⟩⟩
  · exact List.mem_map.mpr ⟨f, hf, rfl⟩
  · exact List.length_take_le _ _
  · exact ((List.sorted_insertionSort countGE _).sublist (List.take_sublist _ _))
  · intro v n hmem
    have hsort : (v, n) ∈ List.insertionSort countGE
        ((col.dedup).map (fun x => (x, col.count x))) :=
      List.take_subset _ _ hmem
    have hmap : (v, n) ∈ (col.dedup).map (fun x => (x, col.count x)) :=
      (List.perm_insertionSort countGE _).mem_iff.mp hsort
    obtain ⟨x, hx, hxeq⟩ := List.mem_map.mp hmap
    obtain ⟨rfl, rfl⟩ : x = v ∧ col.count x = n := by
      constructor <;> simp only [Prod.mk.injEq] at hxeq <;> tauto
    exact ⟨List.mem_dedup.mp hx, rfl⟩

/-- Witness for C9 at a concrete field list, limit, and column. -/
theorem top_subcommand_queries_witness :
    top_subcommand 2 ["request_path"] =
        ["SELECT request_path, COUNT(1) AS count FROM log GROUP BY request_path ORDER BY COUNT DESC LIMIT 2"] ∧
    ("a" ∈ ["a", "b", "a"] ∧ 2 = List.count "a" ["a", "b", "a"]) :=
  ⟨by
    have h := (top_subcommand_queries 2 ["request_path"]).1
    simpa [topQueryText] using h,
   ((top_subcommand_queries 2 ["request_path"]).2.2.2 ["a", "b", "a"]).2.2 "a" 2
     (by decide)⟩

/-- C10: every record produced by `parse_input` has exactly one entry
per requested field, in the order of the field list, each keyed by the
field name prefixed with ":" — so all records share one shape for a
fixed field configuration. -/
theorem record_shape_invariant (pattern : String → Option Captures)
    (fields : List String) (lines : List String) (rec : List (String × SqlValue))
    (h : rec ∈ parse_input pattern fields lines) :
    rec.map Prod.fst = fields.map (fun f => ":" ++ f) ∧
    rec.length = fields.length := by
  obtain ⟨line, hline, hsome⟩ := List.mem_filterMap.mp h
  obtain ⟨c, hc, hrec⟩ := Option.map_eq_some'.mp hsome
  subst hrec
  constructor
  · simp [extractRecord, List.map_map, Function.comp, extractField_fst]
  · simp [extractRecord]

/-- Witness for C10 at a concrete pattern, line and field list. -/
theorem record_shape_invariant_witness :
    List.map Prod.fst (extractRecord [] [STATUS_TYPE, "remote_addr"]) =
        [":status_type", ":remote_addr"] ∧
    (extractRecord [] [STATUS_TYPE, "remote_addr"]).length = 2 :=
  record_shape_invariant (fun _ => some []) [STATUS_TYPE, "remote_addr"] ["l"]
    (extractRecord [] [STATUS_TYPE, "remote_addr"]) (by decide)

end Topngx
